import Mathlib

/-!
# Verification of the daydream3.5 rules library

Shallow embedding of the two concept lineages of the repository:

* `num` models the numeric primitives of `dnd35e.numbers` (module absent
  from the source tree; modelled from the spec, §3/§4.1).
* `concepts` embeds `src/dnd35e/concepts.py` (Progression, Size,
  AbilityScore, AbilityType, Ability, Race, ClassFeature, Class,
  ClassLevel, Feat, Character).
* `legacy` models the legacy lineage `dnd35.concepts` (module absent from
  the source tree; modelled from the spec, §3/§4.3) and embeds the static
  catalog `src/dnd35/srd.py`.
-/

namespace Daydream

namespace num

/-- Modelled from the spec: `dnd35e/numbers.py` is not in the source tree.
Spec §3: "ModifierType: a named category of numeric bonus (e.g. 'size',
'ability', 'racial'). Identity is by name." -/
structure ModifierType where
  name : String
deriving DecidableEq

/-- Modelled from the spec: `dnd35e/numbers.py` is not in the source tree.
Spec §3: "Modifier: an integer-valued bonus tagged with a ModifierType, or
built from one or more free-text descriptive bonus strings and/or named
sub-bonuses. A Modifier constructed with no arguments represents a
zero/no-op bonus." -/
structure Modifier where
  value : Int := 0
  type : Option ModifierType := none
  descriptions : List String := []
  named : List (String × Int) := []
deriving DecidableEq

/-- `Modifier()`: the zero/no-op bonus (spec §3). -/
def Modifier.zero : Modifier := {}

/-- `Modifier(v, t)`: an integer-valued bonus tagged with a ModifierType. -/
def Modifier.tagged (v : Int) (t : ModifierType) : Modifier :=
  { value := v, type := some t }

/-- `int(m)`: "Converting a Modifier to an integer yields its net numeric
value" (spec §4.1), i.e. the explicit value plus all named sub-bonuses. -/
def Modifier.intValue (m : Modifier) : Int :=
  m.value + (m.named.map Prod.snd).sum

/-- `-m`: "negation flips the integer sign only (descriptive text is not
negated)" (spec §4.1); per spec §8.1 `-a` has numeric value `-int(a)`, so
every integer component is negated. -/
def Modifier.neg (m : Modifier) : Modifier :=
  { m with
    value := -m.value
    named := m.named.map (fun p => (p.1, -p.2)) }

/-- `k * m`: scalar multiple of a modifier, used by `Size`'s derived
modifiers, which the spec (§4.5) requires to be linear in the scale. -/
def Modifier.smul (k : Int) (m : Modifier) : Modifier :=
  { m with
    value := k * m.value
    named := m.named.map (fun p => (p.1, k * p.2)) }

/-- `a + b`: "Two Modifiers combine by adding their integer values and
concatenating/merging descriptive and named-subbonus content" (spec §4.1). -/
def Modifier.add (a b : Modifier) : Modifier :=
  { value := a.value + b.value
    type := a.type.orElse (fun _ => b.type)
    descriptions := a.descriptions ++ b.descriptions
    named := a.named ++ b.named }

instance : Add Modifier := ⟨Modifier.add⟩

instance : Neg Modifier := ⟨Modifier.neg⟩

end num

namespace concepts

/-- `Size.modifier_type = num.ModifierType('size')`
(src/dnd35e/concepts.py:88). -/
def sizeModifierType : num.ModifierType := ⟨"size"⟩

/-- `class Size` (src/dnd35e/concepts.py:81-130): a named size category
holding `_modifier = num.Modifier(modifier_value, modifier_type)`. -/
structure Size where
  name : String
  modifier : num.Modifier
deriving DecidableEq

/-- `Size.__init__(name, modifier_value)` (src/dnd35e/concepts.py:115-117). -/
def Size.make (name : String) (modifier_value : Int) : Size :=
  ⟨name, num.Modifier.tagged modifier_value sizeModifierType⟩

/-- `Size.attack` property: `-self._modifier` (src/dnd35e/concepts.py:95-98). -/
def Size.attack (s : Size) : num.Modifier := s.modifier.neg

/-- `Size.armor_class` property: `-self._modifier`
(src/dnd35e/concepts.py:100-103). -/
def Size.armor_class (s : Size) : num.Modifier := s.modifier.neg

/-- `Size.grapple` property: `4 * self._modifier`
(src/dnd35e/concepts.py:105-108). -/
def Size.grapple (s : Size) : num.Modifier := num.Modifier.smul 4 s.modifier

/-- `Size.hide` property: `-4 * self._modifier`
(src/dnd35e/concepts.py:110-113). -/
def Size.hide (s : Size) : num.Modifier := num.Modifier.smul (-4) s.modifier

/-- `AbilityScore.modifier_type = num.ModifierType('ability')`
(src/dnd35e/concepts.py:139). -/
def abilityModifierType : num.ModifierType := ⟨"ability"⟩

/-- `class AbilityScore` (src/dnd35e/concepts.py:133-183): an integer
ability score. -/
structure AbilityScore where
  score : Int
deriving DecidableEq

/-- The default score when none is supplied:
`def __init__(self, score: int = 10)` (src/dnd35e/concepts.py:146). -/
def AbilityScore.default : AbilityScore := ⟨10⟩

/-- `AbilityScore.modifier` property:
`num.Modifier((self.score - 10) // 2, self.modifier_type)`
(src/dnd35e/concepts.py:141-144); `//` is Python floor division. -/
def AbilityScore.modifier (a : AbilityScore) : num.Modifier :=
  num.Modifier.tagged (Int.fdiv (a.score - 10) 2) abilityModifierType

/-- `class AbilityType` (src/dnd35e/concepts.py:186-205): a frozen dataclass
with a name and an optional abbreviation. -/
structure AbilityType where
  name : String
  abbreviation : Option String := none
deriving DecidableEq

/-- `Ability.default_ability_type = AbilityType('Natural')`
(src/dnd35e/concepts.py:225). -/
def defaultAbilityType : AbilityType := ⟨"Natural", none⟩

/-- `class Ability` (src/dnd35e/concepts.py:208-294): a named, typed,
described ability carrying named feature attributes. -/
structure Ability where
  name : String
  ability_type : AbilityType
  description : String
  features : List (String × num.Modifier)
deriving DecidableEq

/-- `Ability.__init__` (src/dnd35e/concepts.py:242-258).  The branch on
`ability_type` is transcribed exactly as written: when `ability_type is
None` the code stores `AbilityType('')`, and otherwise it stores
`self.default_ability_type` — the supplied value is never stored. -/
def Ability.make (name : String) (ability_type : Option AbilityType)
    (description : String) (features : List (String × num.Modifier)) :
    Ability :=
  { name := name
    ability_type :=
      match ability_type with
      | none => ⟨"", none⟩
      | some _ => defaultAbilityType
    description := description
    features := features }

/-- `Race.bonus_languages` class attribute (src/dnd35e/concepts.py:302-306):
the fixed default bonus-language list. -/
def defaultBonusLanguages : List String :=
  ["Abyssal", "Aquan", "Auran", "Celestial", "Common", "Draconic",
   "Dwarven", "Elven", "Giant", "Gnome", "Goblin", "Gnoll", "Halfling",
   "Ignan", "Infernal", "Orc", "Sylvan", "Terran", "Undercommon"]

/-- `class Race` (src/dnd35e/concepts.py:297-374).  `saving_throws` is a
dynamic feature attribute: `none` means it was never assigned, so reading
it raises AttributeError.  `fortitudeAttr`/`reflexAttr`/`willAttr` are the
always-present `_fortitude`/`_reflex`/`_will` slots. -/
structure Race where
  name : String
  size : Size
  speed : Int
  languages : List String
  bonus_languages : List String
  favored_class : String
  saving_throws : Option num.Modifier
  fortitudeAttr : num.Modifier
  reflexAttr : num.Modifier
  willAttr : num.Modifier
  other_features : List (String × num.Modifier)
deriving DecidableEq

/-- `Race.__init__` (src/dnd35e/concepts.py:335-361): `_fortitude`,
`_reflex`, `_will` start as `num.Modifier()` and are overwritten when the
matching feature keyword is supplied (via the property setters);
`bonus_languages` and `favored_class` fall back to the class attributes
when `None`. -/
def Race.make (name : String) (size : Size) (speed : Int)
    (languages : List String) (bonus_languages : Option (List String))
    (favored_class : Option String)
    (saving_throws fortitude reflex will : Option num.Modifier)
    (other_features : List (String × num.Modifier)) : Race :=
  { name := name
    size := size
    speed := speed
    languages := languages
    bonus_languages := bonus_languages.getD defaultBonusLanguages
    favored_class := favored_class.getD "Any"
    saving_throws := saving_throws
    fortitudeAttr := fortitude.getD num.Modifier.zero
    reflexAttr := reflex.getD num.Modifier.zero
    willAttr := will.getD num.Modifier.zero
    other_features := other_features }

/-- `Race._save_bonus` (src/dnd35e/concepts.py:363-374): the specific slot
is always readable; `self.saving_throws` raises AttributeError (→ zero)
when the feature was never supplied; the result is `generic + specific`. -/
def Race.saveBonus (specific : num.Modifier)
    (generic : Option num.Modifier) : num.Modifier :=
  (generic.getD num.Modifier.zero) + specific

/-- `Race.fortitude` property (src/dnd35e/concepts.py:308-311). -/
def Race.fortitude (r : Race) : num.Modifier :=
  Race.saveBonus r.fortitudeAttr r.saving_throws

/-- `Race.reflex` property (src/dnd35e/concepts.py:317-320). -/
def Race.reflex (r : Race) : num.Modifier :=
  Race.saveBonus r.reflexAttr r.saving_throws

/-- `Race.will` property (src/dnd35e/concepts.py:326-329). -/
def Race.will (r : Race) : num.Modifier :=
  Race.saveBonus r.willAttr r.saving_throws

/-- `class ClassFeature` (src/dnd35e/concepts.py:377-413): a level-indexed
table of Abilities.  `__init__` normalizes the keyword keys through
`num.ordinal` into level keys; `dnd35e/numbers.py` is not in the source
tree, so, modelled from the spec (§3: "indexed by character level (1-based,
using ordinal level names as keys internally)"), the stored dict is an
association list from the declared levels to their Abilities, with distinct
keys as a dict guarantees. -/
structure ClassFeature where
  name : String
  description : String
  progression : List (Nat × Ability)
deriving DecidableEq

/-- Maximum of a list of levels, `none` on the empty list — `max()` over a
generator, which fails on an empty one. -/
def maxKey : List Nat → Option Nat
  | [] => none
  | k :: ks =>
    match maxKey ks with
    | none => some k
    | some m => some (max k m)

/-- `ClassFeature.__getitem__` (src/dnd35e/concepts.py:411-413):
`level = max(lvl for lvl in self.progression if lvl <= level)` followed by
a dict lookup.  When no declared level is ≤ the query, `max` fails — the
failure the spec (§7) calls NotFound — modelled as `none`. -/
def ClassFeature.get? (cf : ClassFeature) (level : Nat) : Option Ability :=
  match maxKey ((cf.progression.map Prod.fst).filter
      (fun k => k ≤ level)) with
  | none => none
  | some k => cf.progression.lookup k

/-- Modelled from the spec: `num.Die` (§4.1, `dnd35e/numbers.py` absent):
"opaque die-size descriptor, equality by side count". -/
structure Die where
  sides : Nat
deriving DecidableEq

/-- `class Progression` (src/dnd35e/concepts.py:36-78):
`self._modifiers = [num.Modifier(v, modifier_type) for v in values]` where
`modifier_type = num.ModifierType(modifier_name)`. -/
structure Progression where
  modifier_name : String
  modifiers : List num.Modifier
deriving DecidableEq

/-- `Progression.__init__` (src/dnd35e/concepts.py:49-52). -/
def Progression.make (modifier_name : String) (values : List Int) :
    Progression :=
  ⟨modifier_name,
    values.map (fun v => num.Modifier.tagged v ⟨modifier_name⟩)⟩

/-- `Progression.__getitem__` (src/dnd35e/concepts.py:74-75): plain 0-based
list indexing, `self._modifiers[item]`; an out-of-range index raises
IndexError, modelled as `none`. -/
def Progression.get? (p : Progression) (item : Nat) : Option num.Modifier :=
  p.modifiers[item]?

/-- `class Class` (src/dnd35e/concepts.py:416-440): pure storage of the
class definition. -/
structure Class where
  alignment_restriction : Option (List String)
  hit_die : Die
  class_skills : List String
  skill_points_per_level : Int
  base_attack_bonus : Progression
  fort_save : Progression
  ref_save : Progression
  will_save : Progression
  features : List ClassFeature
deriving DecidableEq

/-- `class ClassLevel` (src/dnd35e/concepts.py:443-469): an attained level
of a particular class. -/
structure ClassLevel where
  class_ : Class
  level : Nat
deriving DecidableEq

/-- `ClassLevel.base_attack_bonus` property (src/dnd35e/concepts.py:451-454):
`self.class_.base_attack_bonus[self.level]`. -/
def ClassLevel.base_attack_bonus (cl : ClassLevel) : Option num.Modifier :=
  cl.class_.base_attack_bonus.get? cl.level

/-- `ClassLevel.fort_save` property (src/dnd35e/concepts.py:456-459). -/
def ClassLevel.fort_save (cl : ClassLevel) : Option num.Modifier :=
  cl.class_.fort_save.get? cl.level

/-- `ClassLevel.ref_save` property (src/dnd35e/concepts.py:461-464). -/
def ClassLevel.ref_save (cl : ClassLevel) : Option num.Modifier :=
  cl.class_.ref_save.get? cl.level

/-- `ClassLevel.will_save` property (src/dnd35e/concepts.py:466-469). -/
def ClassLevel.will_save (cl : ClassLevel) : Option num.Modifier :=
  cl.class_.will_save.get? cl.level

/-- `class Feat` (src/dnd35e/concepts.py:472-478): name only. -/
structure Feat where
  name : String
deriving DecidableEq

/-- `class Character` (src/dnd35e/concepts.py:481-499). -/
structure Character where
  race : Race
  classes : List (Class × Int)
  feats : List Feat

/-- `Character.__init__` (src/dnd35e/concepts.py:486-494):
`self.classes = Counter(classes)` — a Counter built from a dict copies
every key with its count, keeping zero-count entries; the dict is modelled
as an association list whose keys are pairwise distinct. -/
def Character.make (race : Race) (classes : List (Class × Int))
    (feats : List Feat) : Character :=
  ⟨race, classes, feats⟩

/-- `Character.level` property (src/dnd35e/concepts.py:496-499):
`len(self.classes)`, the number of keys of the Counter. -/
def Character.level (c : Character) : Nat := c.classes.length

end concepts

/-! Concrete sample data used to evaluate the embedded code. -/

/-- A sample Ability declared at level 1 of a class feature. -/
def exAbility1 : concepts.Ability :=
  concepts.Ability.make "Improved Strike" none "" []

/-- A sample Ability declared at level 5 of a class feature. -/
def exAbility5 : concepts.Ability :=
  concepts.Ability.make "Greater Strike" none "" []

/-- A sample ClassFeature with Abilities declared at levels 1 and 5. -/
def exClassFeature : concepts.ClassFeature :=
  ⟨"Strike", "", [(1, exAbility1), (5, exAbility5)]⟩

/-- A sample fighter-like class with three-level progressions. -/
def fighterClass : concepts.Class :=
  { alignment_restriction := none
    hit_die := ⟨10⟩
    class_skills := ["Climb", "Jump"]
    skill_points_per_level := 2
    base_attack_bonus := concepts.Progression.make "base attack bonus" [1, 2, 3]
    fort_save := concepts.Progression.make "fortitude" [2, 3, 3]
    ref_save := concepts.Progression.make "reflex" [0, 0, 1]
    will_save := concepts.Progression.make "will" [0, 0, 1]
    features := [] }

/-- A sample wizard-like class with three-level progressions. -/
def wizardClass : concepts.Class :=
  { alignment_restriction := none
    hit_die := ⟨4⟩
    class_skills := ["Concentration", "Spellcraft"]
    skill_points_per_level := 2
    base_attack_bonus := concepts.Progression.make "base attack bonus" [0, 1, 1]
    fort_save := concepts.Progression.make "fortitude" [0, 0, 1]
    ref_save := concepts.Progression.make "reflex" [0, 0, 1]
    will_save := concepts.Progression.make "will" [2, 3, 3]
    features := [] }

/-- A sample race with no optional arguments supplied. -/
def exRace : concepts.Race :=
  concepts.Race.make "Human" (concepts.Size.make "Medium" 0) 30 ["Common"]
    none none none none none none []

namespace legacy

/-- Modelled from the spec: `dnd35/concepts.py` is not in the source tree.
Spec §3: the legacy "Size" is "a size category represented purely by a
signed integer modifier magnitude (no derived sub-modifiers)"; spec §8.3
reads that integer as the `magnitude` attribute. -/
structure Size where
  magnitude : Int
deriving DecidableEq

/-- Modelled from the spec: the legacy
`Modifier(*descriptions, **named_subbonuses)` of `dnd35/concepts.py`
(§4.3) — free-text descriptive bonus strings plus named sub-bonuses. -/
structure Modifier where
  descriptions : List String := []
  named : List (String × Int) := []
deriving DecidableEq

/-- Modelled from the spec: the legacy `Special(name, **named_modifiers)`
of `dnd35/concepts.py` (§3/§4.3) — "a named special ability that may carry
named bonus modifiers". -/
structure Special where
  name : String
  modifiers : List (String × Modifier) := []
deriving DecidableEq

/-- A feature value attached to a legacy Race: an ability-score delta, a
Special, a Modifier, or a list of strings (the elf entry's bonus feats). -/
inductive Feature where
  | int (n : Int)
  | special (s : Special)
  | modifier (m : Modifier)
  | strings (l : List String)
deriving DecidableEq

/-- Modelled from the spec: the legacy `Race(name, size, speed,
number_of_feats, skill_points_per_level, languages, bonus_languages,
favored_class, **features)` of `dnd35/concepts.py` (§4.3);
`number_of_feats` and `skill_points_per_level` are optional — the dwarf
and elf catalog entries omit them. -/
structure Race where
  name : String
  size : Size
  speed : Int
  number_of_feats : Option Int := none
  skill_points_per_level : Option Int := none
  languages : List String
  bonus_languages : Option (List String)
  favored_class : Option String
  features : List (String × Feature) := []
deriving DecidableEq

namespace srd

/-- `fine = concepts.Size(+8)` (src/dnd35/srd.py:9). -/
def fine : Size := ⟨8⟩

/-- `diminutive = concepts.Size(+4)` (src/dnd35/srd.py:10). -/
def diminutive : Size := ⟨4⟩

/-- `tiny = concepts.Size(+2)` (src/dnd35/srd.py:11). -/
def tiny : Size := ⟨2⟩

/-- `small = concepts.Size(+1)` (src/dnd35/srd.py:12). -/
def small : Size := ⟨1⟩

/-- `medium = concepts.Size(+0)` (src/dnd35/srd.py:13). -/
def medium : Size := ⟨0⟩

/-- `large = concepts.Size(-1)` (src/dnd35/srd.py:14). -/
def large : Size := ⟨-1⟩

/-- `huge = concepts.Size(-2)` (src/dnd35/srd.py:15). -/
def huge : Size := ⟨-2⟩

/-- `gargantuan = concepts.Size(-4)` (src/dnd35/srd.py:16). -/
def gargantuan : Size := ⟨-4⟩

/-- `colossal = concepts.Size(-8)` (src/dnd35/srd.py:17). -/
def colossal : Size := ⟨-8⟩

/-- `darkvision` (src/dnd35/srd.py:21). -/
def darkvision : Special := ⟨"Darkvision", []⟩

/-- `stonecunning` (src/dnd35/srd.py:22-23). -/
def stonecunning : Special :=
  ⟨"Stonecunning",
    [("search", ⟨["+2 racial bonus to notice unusual stonework"], []⟩)]⟩

/-- `stability` (src/dnd35/srd.py:24-25). -/
def stability : Special :=
  ⟨"Stability",
    [("STR",
      ⟨["+4 on ability checks to resist being bull rushed or tripped when standing on the ground"],
        []⟩)]⟩

/-- `low_light_vision` (src/dnd35/srd.py:26). -/
def low_light_vision : Special := ⟨"Low-Light Vision", []⟩

/-- `dwarf` (src/dnd35/srd.py:40-59), transcribed keyword by keyword. -/
def dwarf : Race :=
  { name := "Dwarf"
    size := medium
    speed := 20
    languages := ["Common", "Dwarven"]
    bonus_languages :=
      some ["Giant", "Gnome", "Goblin", "Orc", "Terran", "Undercommon"]
    favored_class := some "Fighter"
    features :=
      [("constitution", .int 2),
       ("charisma", .int (-2)),
       ("darkvision", .special darkvision),
       ("stonecunning", .special stonecunning),
       ("weapon_familiarity", .special ⟨"Weapon Familiarity", []⟩),
       ("stability", .special stability),
       ("saving_throws", .modifier
         ⟨["+2 racial bonus on saving throws against poison.",
           "+2 racial bonus on saving throws against spells and spell-like effects."],
          []⟩),
       ("attack_bonus", .modifier
         ⟨["+1 racial bonus on attack rolls against orcs and goblinoids."],
          []⟩),
       ("armor_class", .modifier
         ⟨["+4 dodge bonus to Armor Class against monsters of the giant type."],
          []⟩),
       ("appraise", .modifier
         ⟨["+2 racial bonus on Appraise checks that are related to stone or metal items."],
          []⟩),
       ("craft", .modifier
         ⟨["+2 racial bonus on Craft checks that are related to stone or metal."],
          []⟩)] }

end srd

end legacy

/-- C1: For every core-model Size constructed with name n and integer scale
value s, its four derived modifiers are linear functions of s: attack and
armor_class each have numeric value -s, grapple has numeric value 4*s, and
hide has numeric value -4*s; in particular Size("Large", -1) has
attack == +1, armor_class == +1, grapple == -4, and hide == +4. -/
theorem size_derived_modifiers_linear (n : String) (s : Int) :
    ((concepts.Size.make n s).attack).intValue = -s
    ∧ ((concepts.Size.make n s).armor_class).intValue = -s
    ∧ ((concepts.Size.make n s).grapple).intValue = 4 * s
    ∧ ((concepts.Size.make n s).hide).intValue = -4 * s
    ∧ ((concepts.Size.make "Large" (-1)).attack).intValue = 1
    ∧ ((concepts.Size.make "Large" (-1)).armor_class).intValue = 1
    ∧ ((concepts.Size.make "Large" (-1)).grapple).intValue = -4
    ∧ ((concepts.Size.make "Large" (-1)).hide).intValue = 4 := by
  refine ⟨?_, ?_, ?_, ?_, by decide, by decide, by decide, by decide⟩ <;>
    simp [concepts.Size.make, concepts.Size.attack, concepts.Size.armor_class,
      concepts.Size.grapple, concepts.Size.hide, num.Modifier.tagged,
      num.Modifier.neg, num.Modifier.smul, num.Modifier.intValue]

/-- C2: For every integer score, AbilityScore(score).modifier is a Modifier
of ModifierType "ability" whose numeric value is the floor of
(score - 10) / 2 (rounding toward negative infinity); in particular
AbilityScore(10).modifier == 0, AbilityScore(18).modifier == 4, and
AbilityScore(7).modifier == -2; the score defaults to 10 when not
supplied. -/
theorem abilityScore_modifier_floor (score : Int) :
    (concepts.AbilityScore.mk score).modifier.type = some ⟨"ability"⟩
    ∧ (concepts.AbilityScore.mk score).modifier.intValue
        = ⌊((score : ℚ) - 10) / 2⌋
    ∧ (concepts.AbilityScore.mk 10).modifier.intValue = 0
    ∧ (concepts.AbilityScore.mk 18).modifier.intValue = 4
    ∧ (concepts.AbilityScore.mk 7).modifier.intValue = -2
    ∧ concepts.AbilityScore.default = concepts.AbilityScore.mk 10 := by
  refine ⟨rfl, ?_, by decide, by decide, by decide, rfl⟩
  have hfd : Int.fdiv (score - 10) 2 = (score - 10) / 2 :=
    Int.fdiv_eq_ediv _ (by norm_num)
  have hfl : ⌊(((score - 10 : Int) : ℚ) / ((2 : Nat) : ℚ))⌋
      = (score - 10) / ((2 : Nat) : Int) :=
    Rat.floor_intCast_div_natCast (score - 10) 2
  have : (concepts.AbilityScore.mk score).modifier.intValue
      = Int.fdiv (score - 10) 2 := by
    simp [concepts.AbilityScore.modifier, num.Modifier.tagged,
      num.Modifier.intValue]
  rw [this, hfd]
  rw [show ((score : ℚ) - 10) = ((score - 10 : Int) : ℚ) by push_cast; ring]
  rw [show ((2 : ℚ)) = ((2 : Nat) : ℚ) by norm_num] at *
  rw [hfl]
  norm_num

/-- C4: For every Race, the fortitude, reflex, and will properties each
equal the sum of the race-wide saving_throws Modifier and the corresponding
save-specific Modifier, where each operand that was never supplied
contributes a zero (no-argument) Modifier; in particular a Race given
neither saving_throws nor any save-specific feature has a zero Modifier for
all three saves. -/
theorem race_save_bonuses (name : String) (size : concepts.Size)
    (speed : Int) (languages : List String)
    (bonus_languages : Option (List String)) (favored_class : Option String)
    (st f rx w : Option num.Modifier)
    (other : List (String × num.Modifier)) :
    (concepts.Race.make name size speed languages bonus_languages
        favored_class st f rx w other).fortitude
      = (st.getD num.Modifier.zero) + (f.getD num.Modifier.zero)
    ∧ (concepts.Race.make name size speed languages bonus_languages
        favored_class st f rx w other).reflex
      = (st.getD num.Modifier.zero) + (rx.getD num.Modifier.zero)
    ∧ (concepts.Race.make name size speed languages bonus_languages
        favored_class st f rx w other).will
      = (st.getD num.Modifier.zero) + (w.getD num.Modifier.zero)
    ∧ (concepts.Race.make name size speed languages bonus_languages
        favored_class none none none none other).fortitude
      = num.Modifier.zero
    ∧ (concepts.Race.make name size speed languages bonus_languages
        favored_class none none none none other).reflex
      = num.Modifier.zero
    ∧ (concepts.Race.make name size speed languages bonus_languages
        favored_class none none none none other).will
      = num.Modifier.zero := by
  refine ⟨rfl, rfl, rfl, ?_, ?_, ?_⟩ <;> rfl

/-- C7 (code bug): `Ability.__init__` discards an explicitly supplied
AbilityType.  Constructing `Ability("Flight", AbilityType("Extraordinary",
"Ex"), "")` stores the class default `AbilityType("Natural")` instead of
the supplied type, and constructing with no AbilityType stores
`AbilityType("")` rather than the documented default
`AbilityType("Natural")`. -/
theorem ability_type_discarded :
    (concepts.Ability.make "Flight" (some ⟨"Extraordinary", some "Ex"⟩)
        "" []).ability_type = ⟨"Natural", none⟩
    ∧ (concepts.Ability.make "Flight" (some ⟨"Extraordinary", some "Ex"⟩)
        "" []).ability_type ≠ ⟨"Extraordinary", some "Ex"⟩
    ∧ (concepts.Ability.make "Flight" none "" []).ability_type = ⟨"", none⟩
    ∧ (concepts.Ability.make "Flight" none "" []).ability_type
        ≠ concepts.defaultAbilityType := by
  refine ⟨rfl, ?_, rfl, ?_⟩ <;> decide

/-! Helper lemmas about `maxKey` and association-list lookup. -/

theorem maxKey_mem {l : List Nat} {m : Nat}
    (h : concepts.maxKey l = some m) : m ∈ l := by
  induction l generalizing m with
  | nil => simp [concepts.maxKey] at h
  | cons a t ih =>
    cases ht : concepts.maxKey t with
    | none =>
      simp [concepts.maxKey, ht] at h
      simp [h]
    | some m' =>
      simp [concepts.maxKey, ht] at h
      rcases max_choice a m' with hc | hc <;> rw [hc] at h
      · simp [h]
      · exact List.mem_cons_of_mem _ (h ▸ ih ht)

theorem maxKey_eq_some {l : List Nat} {k : Nat} (hk : k ∈ l)
    (hmax : ∀ x ∈ l, x ≤ k) : concepts.maxKey l = some k := by
  induction l with
  | nil => cases hk
  | cons a t ih =>
    rcases List.mem_cons.mp hk with rfl | hkt
    · cases ht : concepts.maxKey t with
      | none => simp [concepts.maxKey, ht]
      | some m =>
        have hm : m ∈ t := maxKey_mem ht
        have hmk : m ≤ k := hmax m (List.mem_cons_of_mem _ hm)
        simp [concepts.maxKey, ht, Nat.max_eq_left hmk]
    · have ht : concepts.maxKey t = some k :=
        ih hkt (fun x hx => hmax x (List.mem_cons_of_mem _ hx))
      have ha : a ≤ k := hmax a (List.mem_cons_self a t)
      simp [concepts.maxKey, ht, Nat.max_eq_right ha]

theorem lookup_of_mem_nodup {ps : List (Nat × concepts.Ability)} {k : Nat}
    {a : concepts.Ability} (hnd : (ps.map Prod.fst).Nodup)
    (hmem : (k, a) ∈ ps) : ps.lookup k = some a := by
  induction ps with
  | nil => cases hmem
  | cons p t ih =>
    obtain ⟨b, c⟩ := p
    rcases List.mem_cons.mp hmem with heq | hmemt
    · rw [show k = b from (Prod.mk.injEq _ _ _ _ ▸ heq).1,
        show a = c from (Prod.mk.injEq _ _ _ _ ▸ heq).2]
      simp [List.lookup]
    · have hkb : k ≠ b := by
        intro h
        have hmemk : b ∈ t.map Prod.fst :=
          List.mem_map.mpr ⟨(k, a), hmemt, (congrArg Prod.fst (by rw [h]))⟩
        exact (List.nodup_cons.mp (by simpa using hnd)).1 hmemk
      have htnd : (t.map Prod.fst).Nodup :=
        (List.nodup_cons.mp (by simpa using hnd)).2
      simp [List.lookup, beq_false_of_ne hkb]
      exact ih htnd hmemt

/-- C3: For every ClassFeature with abilities declared at a non-empty set
of levels, indexing it at a queried level at or above the lowest declared
level returns the Ability registered at the greatest declared level not
exceeding the query, and indexing it at a level strictly below the lowest
declared level fails with NotFound. -/
theorem classFeature_lookup (cf : concepts.ClassFeature)
    (hnd : (cf.progression.map Prod.fst).Nodup) :
    (∀ q k a, (k, a) ∈ cf.progression → k ≤ q →
        (∀ x ∈ cf.progression.map Prod.fst, x ≤ q → x ≤ k) →
        cf.get? q = some a)
    ∧ (∀ q, (∀ x ∈ cf.progression.map Prod.fst, q < x) →
        cf.get? q = none) := by
  constructor
  · intro q k a hmem hle hmax
    have hkmem : k ∈ (cf.progression.map Prod.fst).filter
        (fun x => x ≤ q) :=
      List.mem_filter.mpr
        ⟨List.mem_map.mpr ⟨(k, a), hmem, rfl⟩, by simpa using hle⟩
    have hkmax : ∀ x ∈ (cf.progression.map Prod.fst).filter
        (fun x => x ≤ q), x ≤ k := by
      intro x hx
      obtain ⟨hx1, hx2⟩ := List.mem_filter.mp hx
      exact hmax x hx1 (by simpa using hx2)
    have hmx := maxKey_eq_some hkmem hkmax
    simp [concepts.ClassFeature.get?, hmx, lookup_of_mem_nodup hnd hmem]
  · intro q hq
    have hfil : (cf.progression.map Prod.fst).filter
        (fun x => x ≤ q) = [] := by
      rw [List.filter_eq_nil_iff]
      intro x hx
      simpa using Nat.not_le.mpr (hq x hx)
    simp [concepts.ClassFeature.get?, hfil, concepts.maxKey]

/-- Witness for C3 at the spec's example: abilities declared at levels 1
and 5; querying level 3 yields the level-1 Ability, levels 5 and 6 yield
the level-5 Ability, and level 0 fails. -/
theorem classFeature_lookup_witness :
    exClassFeature.get? 3 = some exAbility1
    ∧ exClassFeature.get? 5 = some exAbility5
    ∧ exClassFeature.get? 6 = some exAbility5
    ∧ exClassFeature.get? 0 = none := by
  have h := classFeature_lookup exClassFeature (by decide)
  exact ⟨h.1 3 1 exAbility1 (by decide) (by decide) (by decide),
    h.1 5 5 exAbility5 (by decide) (by decide) (by decide),
    h.1 6 5 exAbility5 (by decide) (by decide) (by decide),
    h.2 0 (by decide)⟩

/-- C5 counterexample: with a Class whose base-attack Progression was built
from the values [1, 2, 3], the claim says ClassLevel at (1-based) level 1
has base attack bonus 1 (the first value) — but the code indexes the
backing list 0-based and returns 2 (the second value); likewise the last
1-based level, 3, is out of range. -/
theorem classLevel_offByOne_counterexample :
    (concepts.ClassLevel.mk fighterClass 1).base_attack_bonus
      = some (num.Modifier.tagged 2 ⟨"base attack bonus"⟩)
    ∧ (concepts.ClassLevel.mk fighterClass 1).base_attack_bonus
      ≠ some (num.Modifier.tagged 1 ⟨"base attack bonus"⟩)
    ∧ (concepts.ClassLevel.mk fighterClass 3).base_attack_bonus = none := by
  refine ⟨rfl, ?_, rfl⟩
  decide

/-- C5 amended: for every ClassLevel holding class c at level L, its
base_attack_bonus, fort_save, ref_save, and will_save properties each equal
the Modifier that the corresponding Progression of c defines at 0-based
position L — a Progression constructed from a sequence of values assigns
its first value to level 0, its second to level 1, and so on — provided L
is strictly below the number of supplied values. -/
theorem classLevel_progression_indexing
    (ar : Option (List String)) (hd : concepts.Die) (cs : List String)
    (spp : Int) (nb nf nr nw : String) (vb vf vr vw : List Int)
    (feats : List concepts.ClassFeature) (L : Nat)
    (hb : L < vb.length) (hf : L < vf.length) (hr : L < vr.length)
    (hw : L < vw.length) :
    (concepts.ClassLevel.mk
        (concepts.Class.mk ar hd cs spp
          (concepts.Progression.make nb vb) (concepts.Progression.make nf vf)
          (concepts.Progression.make nr vr) (concepts.Progression.make nw vw)
          feats) L).base_attack_bonus
      = some (num.Modifier.tagged (vb.get ⟨L, hb⟩) ⟨nb⟩)
    ∧ (concepts.ClassLevel.mk
        (concepts.Class.mk ar hd cs spp
          (concepts.Progression.make nb vb) (concepts.Progression.make nf vf)
          (concepts.Progression.make nr vr) (concepts.Progression.make nw vw)
          feats) L).fort_save
      = some (num.Modifier.tagged (vf.get ⟨L, hf⟩) ⟨nf⟩)
    ∧ (concepts.ClassLevel.mk
        (concepts.Class.mk ar hd cs spp
          (concepts.Progression.make nb vb) (concepts.Progression.make nf vf)
          (concepts.Progression.make nr vr) (concepts.Progression.make nw vw)
          feats) L).ref_save
      = some (num.Modifier.tagged (vr.get ⟨L, hr⟩) ⟨nr⟩)
    ∧ (concepts.ClassLevel.mk
        (concepts.Class.mk ar hd cs spp
          (concepts.Progression.make nb vb) (concepts.Progression.make nf vf)
          (concepts.Progression.make nr vr) (concepts.Progression.make nw vw)
          feats) L).will_save
      = some (num.Modifier.tagged (vw.get ⟨L, hw⟩) ⟨nw⟩) := by
  refine ⟨?_, ?_, ?_, ?_⟩ <;>
    simp [concepts.ClassLevel.base_attack_bonus, concepts.ClassLevel.fort_save,
      concepts.ClassLevel.ref_save, concepts.ClassLevel.will_save,
      concepts.Progression.get?, concepts.Progression.make,
      List.getElem?_eq_getElem, hb, hf, hr, hw]

/-- Witness for C5 (amended) at a concrete class and level. -/
theorem classLevel_progression_indexing_witness :
    (concepts.ClassLevel.mk fighterClass 1).base_attack_bonus
      = some (num.Modifier.tagged 2 ⟨"base attack bonus"⟩)
    ∧ (concepts.ClassLevel.mk fighterClass 1).fort_save
      = some (num.Modifier.tagged 3 ⟨"fortitude"⟩)
    ∧ (concepts.ClassLevel.mk fighterClass 1).ref_save
      = some (num.Modifier.tagged 0 ⟨"reflex"⟩)
    ∧ (concepts.ClassLevel.mk fighterClass 1).will_save
      = some (num.Modifier.tagged 0 ⟨"will"⟩) :=
  classLevel_progression_indexing none ⟨10⟩ ["Climb", "Jump"] 2
    "base attack bonus" "fortitude" "reflex" "will"
    [1, 2, 3] [2, 3, 3] [0, 0, 1] [0, 0, 1] [] 1
    (by decide) (by decide) (by decide) (by decide)

/-- C6: For every Character constructed from a race, a classes mapping, and
a feat list, its level property equals the number of distinct classes held,
not the sum of levels across classes; in particular a Character with
classes {Fighter: 3, Wizard: 2} has level == 2. -/
theorem character_level_counts_classes (race : concepts.Race)
    (feats : List concepts.Feat) (classes : List (concepts.Class × Int))
    (hnd : (classes.map Prod.fst).Nodup) :
    (concepts.Character.make race classes feats).level
      = ((classes.map Prod.fst).dedup).length
    ∧ (concepts.Character.make race
        [(fighterClass, 3), (wizardClass, 2)] feats).level = 2
    ∧ (concepts.Character.make race
        [(fighterClass, 3), (wizardClass, 2)] feats).level ≠ 3 + 2 := by
  refine ⟨?_, rfl, by simp [concepts.Character.make, concepts.Character.level]⟩
  rw [List.Nodup.dedup hnd]
  simp [concepts.Character.make, concepts.Character.level]

/-- Witness for C6 at concrete inputs. -/
theorem character_level_counts_classes_witness :
    (concepts.Character.make exRace
        [(fighterClass, 3), (wizardClass, 2)] []).level = 2
    ∧ (concepts.Character.make exRace
        [(fighterClass, 3), (wizardClass, 2)] []).level ≠ 3 + 2 := by
  have h := character_level_counts_classes exRace []
    [(fighterClass, 3), (wizardClass, 2)] (by decide)
  exact ⟨h.2.1, h.2.2⟩

/-- C10: For every Character whose classes mapping contains an entry
mapping some class to 0 levels held, that class still counts toward the
level property: level equals the number of keys in the stored Counter,
including entries whose levels-held count is zero, so
Character(race, {Fighter: 0}, []) has level == 1. -/
theorem character_level_counts_zero_entries (race : concepts.Race)
    (feats : List concepts.Feat)
    (classes : List (concepts.Class × Int)) :
    (concepts.Character.make race classes feats).level = classes.length
    ∧ (concepts.Character.make race [(fighterClass, 0)] feats).level = 1 :=
  ⟨rfl, rfl⟩

/-- C8: The legacy reference catalog defines the size categories in the
sequence Fine, Diminutive, Tiny, Small, Medium, Large, Huge, Gargantuan,
Colossal with magnitudes +8, +4, +2, +1, 0, -1, -2, -4, -8 respectively;
in particular fine has magnitude 8 and colossal has magnitude -8, and the
magnitudes are monotonically decreasing along the sequence. -/
theorem srd_size_catalog :
    legacy.srd.fine.magnitude = 8
    ∧ legacy.srd.diminutive.magnitude = 4
    ∧ legacy.srd.tiny.magnitude = 2
    ∧ legacy.srd.small.magnitude = 1
    ∧ legacy.srd.medium.magnitude = 0
    ∧ legacy.srd.large.magnitude = -1
    ∧ legacy.srd.huge.magnitude = -2
    ∧ legacy.srd.gargantuan.magnitude = -4
    ∧ legacy.srd.colossal.magnitude = -8
    ∧ List.Chain' (fun a b : Int => b < a)
        ([legacy.srd.fine, legacy.srd.diminutive, legacy.srd.tiny,
          legacy.srd.small, legacy.srd.medium, legacy.srd.large,
          legacy.srd.huge, legacy.srd.gargantuan,
          legacy.srd.colossal].map legacy.Size.magnitude) := by
  refine ⟨rfl, rfl, rfl, rfl, rfl, rfl, rfl, rfl, rfl, ?_⟩
  show List.Chain' (fun a b : Int => b < a) [8, 4, 2, 1, 0, -1, -2, -4, -8]
  norm_num [List.chain'_cons, List.chain'_singleton]

/-- C9: The legacy catalog's dwarf race is defined with exactly the literal
values the spec lists: size medium, speed 20, constitution +2, charisma -2,
the Darkvision, Stonecunning, Weapon Familiarity, and Stability specials,
a saving_throws Modifier carrying the +2-vs-poison and +2-vs-spells
descriptive bonuses, a +1 attack_bonus vs. orcs/goblinoids, a +4
armor_class vs. giants, +2 appraise and craft Modifiers for
stone-or-metal items, languages ['Common', 'Dwarven'], bonus languages
['Giant', 'Gnome', 'Goblin', 'Orc', 'Terran', 'Undercommon'], and favored
class 'Fighter'. -/
theorem srd_dwarf_catalog :
    legacy.srd.dwarf.name = "Dwarf"
    ∧ legacy.srd.dwarf.size = legacy.srd.medium
    ∧ legacy.srd.dwarf.speed = 20
    ∧ legacy.srd.dwarf.features.lookup "constitution"
      = some (.int 2)
    ∧ legacy.srd.dwarf.features.lookup "charisma"
      = some (.int (-2))
    ∧ legacy.srd.dwarf.features.lookup "darkvision"
      = some (.special ⟨"Darkvision", []⟩)
    ∧ legacy.srd.dwarf.features.lookup "stonecunning"
      = some (.special ⟨"Stonecunning",
          [("search", ⟨["+2 racial bonus to notice unusual stonework"], []⟩)]⟩)
    ∧ legacy.srd.dwarf.features.lookup "weapon_familiarity"
      = some (.special ⟨"Weapon Familiarity", []⟩)
    ∧ legacy.srd.dwarf.features.lookup "stability"
      = some (.special legacy.srd.stability)
    ∧ legacy.srd.dwarf.features.lookup "saving_throws"
      = some (.modifier
          ⟨["+2 racial bonus on saving throws against poison.",
            "+2 racial bonus on saving throws against spells and spell-like effects."],
           []⟩)
    ∧ legacy.srd.dwarf.features.lookup "attack_bonus"
      = some (.modifier
          ⟨["+1 racial bonus on attack rolls against orcs and goblinoids."],
           []⟩)
    ∧ legacy.srd.dwarf.features.lookup "armor_class"
      = some (.modifier
          ⟨["+4 dodge bonus to Armor Class against monsters of the giant type."],
           []⟩)
    ∧ legacy.srd.dwarf.features.lookup "appraise"
      = some (.modifier
          ⟨["+2 racial bonus on Appraise checks that are related to stone or metal items."],
           []⟩)
    ∧ legacy.srd.dwarf.features.lookup "craft"
      = some (.modifier
          ⟨["+2 racial bonus on Craft checks that are related to stone or metal."],
           []⟩)
    ∧ legacy.srd.dwarf.languages = ["Common", "Dwarven"]
    ∧ legacy.srd.dwarf.bonus_languages
      = some ["Giant", "Gnome", "Goblin", "Orc", "Terran", "Undercommon"]
    ∧ legacy.srd.dwarf.favored_class = some "Fighter" := by
  refine ⟨rfl, rfl, rfl, ?_, ?_, ?_, ?_, ?_, ?_, ?_, ?_, ?_, ?_, ?_,
    rfl, rfl, rfl⟩ <;> decide

end Daydream
